import Mathlib

/-
Shallow embedding of the book-generation pipeline of `backend/server.py`:
the strategy selection, the bounded attempt loop of
`AIBookGenerator.generate_book`, the template fallback
`_generate_enhanced_fallback_book`, and the `/api/generate-book` endpoint.

Ambient effects of the Python code are made explicit parameters:
the external LLM call `chat.send_message` becomes an oracle
`att : Nat -> Strategy -> Except String (Option String)` (exception, or an
optional response string), `uuid.uuid4()` becomes a `uuid : String`
parameter, `datetime.utcnow()` a `now : Nat` parameter,
`datetime.now().strftime("%B %Y")` a `today : String` parameter, and the
MongoDB `insert_one` outcome a `storeResult : Except String Unit` parameter.
String helpers model the CPython behaviour of `str.lower`, `str.title`,
`str.strip`, `str.split` and the `in` operator for ASCII data.
-/

namespace FinalBook

/-- Characters treated as whitespace by Python `str.split()` / `str.strip()`
(ASCII fragment: space, tab, newline, carriage return, vertical tab, form feed). -/
def isSpaceChar (c : Char) : Bool :=
  c == ' ' || c == '\t' || c == '\n' || c == '\r' || c == '\x0b' || c == '\x0c'

/-- Model of Python `str.lower()` (ASCII). -/
def pyLower (s : String) : String := String.mk (s.data.map Char.toLower)

/-- Helper for `pyTitle`: the Bool tracks whether the previous character was
alphabetic (cased). -/
def pyTitleAux : List Char → Bool → List Char
  | [], _ => []
  | c :: cs, prevCased =>
    if c.isAlpha then
      (if prevCased then c.toLower else c.toUpper) :: pyTitleAux cs true
    else
      c :: pyTitleAux cs false

/-- Model of Python `str.title()` (ASCII): the first character of each
alphabetic run is uppercased, the rest lowercased. -/
def pyTitle (s : String) : String := String.mk (pyTitleAux s.data false)

/-- Model of Python `str.strip()`: drop whitespace from both ends. -/
def pyStrip (s : String) : String :=
  String.mk (((s.data.dropWhile isSpaceChar).reverse.dropWhile isSpaceChar).reverse)

/-- Helper for `pySplit`: `cur` holds the characters of the current token in
reverse order. -/
def pySplitAux : List Char → List Char → List String
  | [], [] => []
  | [], cur => [String.mk cur.reverse]
  | c :: cs, cur =>
    if isSpaceChar c then
      match cur with
      | [] => pySplitAux cs []
      | _ :: _ => String.mk cur.reverse :: pySplitAux cs []
    else
      pySplitAux cs (c :: cur)

/-- Model of Python `str.split()` with no arguments: maximal runs of
non-whitespace characters, no empty tokens. -/
def pySplit (s : String) : List String := pySplitAux s.data []

/-- Decides whether `needle` is a prefix of `hay` (character lists). -/
def charsPrefix : List Char → List Char → Bool
  | [], _ => true
  | _ :: _, [] => false
  | n :: ns, h :: hs => n == h && charsPrefix ns hs

/-- Decides whether `needle` occurs as a contiguous substring of `hay`. -/
def charsContains (needle : List Char) : List Char → Bool
  | [] => needle.isEmpty
  | c :: t => charsPrefix needle (c :: t) || charsContains needle t

/-- Model of Python `needle in hay` for strings. -/
def pyIn (needle hay : String) : Bool := charsContains needle.data hay.data

/-- Model of Python `s * n` (string repetition). -/
def pyRepeat (s : String) : Nat → String
  | 0 => ""
  | n + 1 => s ++ pyRepeat s n

/-- Input model of `BookRequest` (server.py lines 33-39). -/
structure BookRequest where
  topic : String
  audience : String
  style : String := "professional"
  length : String := "medium"
  tier : String := "pro"
  email : Option String := none
deriving DecidableEq

/-- Response model of `BookResponse` (server.py lines 41-49);
`created_at` timestamps are abstracted as `Nat`. -/
structure BookResponse where
  id : String
  topic : String
  audience : String
  content : String
  status : String
  tier : String
  word_count : Nat
  created_at : Nat
deriving DecidableEq

/-- Persistence model of `BookOrder` (server.py lines 51-57). -/
structure BookOrder where
  id : String
  book_request : BookRequest
  content : String
  status : String := "generated"
  word_count : Nat
  created_at : Nat
deriving DecidableEq

/-- One generation strategy: the `(model_provider, model_name,
style_instruction)` triple chosen in `generate_book` (lines 76-91). -/
structure Strategy where
  provider : String
  model : String
  style_instruction : String
deriving DecidableEq

/-- Strategy selection of `generate_book` (server.py lines 77-91):
keyword matching on the lowercased topic. -/
def selectStrategy (topic : String) : Strategy :=
  if pyIn "technical" (pyLower topic) || pyIn "programming" (pyLower topic) then
    ⟨"openai", "gpt-4o-mini", "technical yet accessible"⟩
  else if pyIn "story" (pyLower topic) || pyIn "creative" (pyLower topic) then
    ⟨"anthropic", "claude-3-5-sonnet-20241022", "engaging and narrative-driven"⟩
  else
    ⟨"openai", "gpt-4o-mini", "clear and informative"⟩

/-- Retry reassignment in the `except` branch (lines 159-160): provider and
model are forced to the default, `style_instruction` is not touched. -/
def defaultRetryStrategy (s : Strategy) : Strategy :=
  { s with provider := "openai", model := "gpt-4o-mini" }

/-- Quality check of line 150: `if response and len(response.strip()) > 500`.
A `None` response and the empty string are falsy in Python. -/
def responseOk : Option String → Bool
  | none => false
  | some r => !(r == "") && decide (500 < (pyStrip r).length)

/-- Tier-to-multiplier table of `_generate_enhanced_fallback_book`
(line 187): `{"basic": 1, "pro": 2, "premium": 3}.get(request.tier, 2)`. -/
def contentMultiplier (tier : String) : Nat :=
  (([("basic", 1), ("pro", 2), ("premium", 3)] : List (String × Nat)).lookup tier).getD 2

/-- Topic-to-examples table of `_generate_enhanced_fallback_book`
(lines 171-177). -/
def topicExamples : List (String × String) :=
  [("python", "variables, functions, loops, classes"),
   ("javascript", "DOM manipulation, async/await, React components"),
   ("marketing", "customer personas, conversion funnels, A/B testing"),
   ("finance", "budgeting, investing, compound interest"),
   ("health", "nutrition basics, exercise routines, stress management")]

/-- Example lookup of lines 180-184: the first table key contained in the
lowercased topic wins, else a generic default. -/
def findExamples (topic : String) : String :=
  match topicExamples.find? (fun kv => pyIn (pyLower kv.1) (pyLower topic)) with
  | some kv => kv.2
  | none => "practical concepts and real-world applications"

/-- Body of the fallback template f-string (server.py lines 189-534), with the interpolated expressions as parameters. -/
def fallbackBody (t a ex today : String) (m : Nat) : String :=
  "# \uf8ff\u00fc\u00f6\u00c4 "
  ++ (pyTitle t)
  ++ ": The Complete Guide for "
  ++ (pyTitle a)
  ++ "\n\n*Your comprehensive resource for mastering "
  ++ (pyLower t)
  ++ "*\n\n---\n\n## \uf8ff\u00fc\u00ec\u00e3 Table of Contents\n\n1. [Why "
  ++ t
  ++ " Matters](#chapter-1)\n2. [Getting Started: First Steps](#chapter-2) \n3. [Core Fundamentals](#chapt"
  ++ "er-3)\n4. [Practical Applications](#chapter-4)\n5. [Advanced Strategies](#chapter-5)\n6. [Common Pit"
  ++ "falls & Solutions](#chapter-6)\n7. [Best Practices & Tips](#chapter-7)\n8. [Your Next Steps](#chapte"
  ++ "r-8)\n\n---\n\n## Chapter 1: Why "
  ++ t
  ++ " Matters\n\nWelcome to your journey into "
  ++ t
  ++ "! This book is specifically crafted for "
  ++ a
  ++ " who want to gain real, applicable knowledge.\n\n### The Current Landscape\n\nIn today\x27s rapidly "
  ++ "evolving world, "
  ++ (pyLower t)
  ++ " has become more crucial than ever. Whether you\x27re just starting out or looking to deepen your un"
  ++ "derstanding, this guide will provide you with:\n\n- **Clear explanations** that make complex concept"
  ++ "s accessible\n- **Step-by-step instructions** you can follow immediately  \n- **Real-world examples*"
  ++ "* from successful implementations\n- **Proven strategies** that deliver measurable results\n\n\uf8ff"
  ++ "\u00fc\u00ed\u00b0 **Pro Tip:** The key to mastering "
  ++ (pyLower t)
  ++ " is consistent practice combined with understanding the underlying principles.\n\n### What Makes Thi"
  ++ "s Different\n\nUnlike other resources that focus on theory, this book emphasizes:\n\n\u201a\u00fa\u00d6"
  ++ " **Practical application** - Every concept includes actionable steps\n\u201a\u00fa\u00d6 **Beginner-"
  ++ "friendly approach** - No prior experience assumed\n\u201a\u00fa\u00d6 **Progressive learning** - Eac"
  ++ "h chapter builds on previous knowledge\n\u201a\u00fa\u00d6 **Real examples** - Case studies from act"
  ++ "ual implementations\n\n\u201a\u00f6\u00b0 **Quick Win:** By the end of this first chapter, you\x27ll"
  ++ " understand exactly why "
  ++ (pyLower t)
  ++ " is essential for "
  ++ a
  ++ ".\n\n---\n\n## Chapter 2: Getting Started - First Steps\n\nLet\x27s dive into the fundamentals you n"
  ++ "eed to begin your "
  ++ (pyLower t)
  ++ " journey.\n\n### Essential Prerequisites\n\nBefore we begin, ensure you have:\n- A clear understandi"
  ++ "ng of your goals\n- Basic familiarity with "
  ++ ex
  ++ "\n- Access to the necessary tools (covered below)\n- Commitment to regular practice\n\n### Setting U"
  ++ "p Your Environment\n\n**Step 1: Gather Your Tools**\n"
  ++ (pyRepeat ("For " ++ (pyLower t) ++ ", you\x27ll need specific tools and resources. Here\x27s your starter toolkit:") m)
  ++ "\n\n**Step 2: Create Your Workspace**\nOrganization is key to success. Set up a dedicated space wher"
  ++ "e you can focus on learning and applying "
  ++ (pyLower t)
  ++ " concepts.\n\n**Step 3: Establish Your Learning Routine**\nConsistency beats intensity. Aim for regu"
  ++ "lar, focused sessions rather than occasional marathon efforts.\n\n\uf8ff\u00fc\u00ed\u00b0 **Pro Tip"
  ++ ":** Start with just 15-30 minutes daily. This builds momentum without overwhelming your schedule.\n\n"
  ++ "### Your First Success\n\nHere\x27s a simple exercise to get you started:\n\n1. **Identify** your pr"
  ++ "imary goal with "
  ++ (pyLower t)
  ++ "\n2. **Define** what success looks like for you\n3. **Choose** one specific area to focus on first\n"
  ++ "4. **Take action** on the smallest possible step today\n\n\uf8ff\u00fc\u00ee\u00e7 **Deep Dive:** Th"
  ++ "e most successful learners combine theoretical understanding with immediate practical application.\n"
  ++ "\n---\n\n## Chapter 3: Core Fundamentals\n\nNow that you\x27re set up, let\x27s explore the essentia"
  ++ "l concepts that form the foundation of "
  ++ (pyLower t)
  ++ ".\n\n### The Building Blocks\n\nEvery expert in "
  ++ (pyLower t)
  ++ " masters these core elements:\n\n**Fundamental #1: Understanding the Basics**\n"
  ++ (pyRepeat ("The foundation of " ++ (pyLower t) ++ " rests on understanding key principles that govern how things work.") m)
  ++ "\n\n**Fundamental #2: Practical Application**\nKnowledge without application is just information. He"
  ++ "re\x27s how to put theory into practice:\n- Start with simple examples\n- Gradually increase complex"
  ++ "ity  \n- Test your understanding regularly\n- Learn from mistakes\n\n**Fundamental #3: System Thinki"
  ++ "ng**\n"
  ++ (pyRepeat ((pyTitle t) ++ " isn\x27t just about isolated techniques\u201a\u00c4\u00eeit\x27s about understanding how components work together.") m)
  ++ "\n\n\u201a\u00f6\u00b0 **Quick Win:** Practice explaining one fundamental concept to someone else. I"
  ++ "f you can teach it, you understand it.\n\n### Common Misconceptions\n\nLet\x27s address the most fre"
  ++ "quent misunderstandings about "
  ++ (pyLower t)
  ++ ":\n\n\u201a\u00f9\u00e5 **Myth:** You need extensive background knowledge to get started\n\u201a\u00fa"
  ++ "\u00d6 **Reality:** Basic understanding is sufficient; expertise develops through practice\n\n\u201a"
  ++ "\u00f9\u00e5 **Myth:** There\x27s one \"right\" way to approach "
  ++ (pyLower t)
  ++ "\n\u201a\u00fa\u00d6 **Reality:** Multiple valid approaches exist; choose what works for your situat"
  ++ "ion\n\n\uf8ff\u00fc\u00ed\u00b0 **Pro Tip:** Question conventional wisdom. Some \"best practices\" m"
  ++ "ay not apply to your specific context.\n\n---\n\n## Chapter 4: Practical Applications\n\nTheory is v"
  ++ "aluable, but application is where real learning happens. Let\x27s explore how to use "
  ++ (pyLower t)
  ++ " in real-world scenarios.\n\n### Real-World Scenarios\n\n**Scenario 1: The Beginner\x27s Challenge**\n"
  ++ (pyRepeat ("When you\x27re new to " ++ (pyLower t) ++ ", you\x27ll encounter situations that seem overwhelming. Here\x27s how to break them down:") m)
  ++ "\n\n- Identify the core problem\n- Break it into smaller components\n- Address each component system"
  ++ "atically\n- Integrate solutions into a coherent whole\n\n**Scenario 2: The Scaling Challenge**\nAs y"
  ++ "ou advance, you\x27ll need to apply "
  ++ (pyLower t)
  ++ " concepts at larger scales or in more complex situations.\n\n**Scenario 3: The Innovation Challenge*"
  ++ "*\nEventually, you\x27ll encounter unique situations requiring creative applications of "
  ++ (pyLower t)
  ++ " principles.\n\n### Step-by-Step Implementation Guide\n\n**Phase 1: Planning (Days 1-3)**\n- Assess "
  ++ "your current situation\n- Define clear objectives\n- Identify required resources\n- Create implement"
  ++ "ation timeline\n\n**Phase 2: Execution (Days 4-14)**  \n- Begin with foundational elements\n- Monito"
  ++ "r progress regularly\n- Adjust approach based on results\n- Document lessons learned\n\n**Phase 3: O"
  ++ "ptimization (Days 15-30)**\n- Analyze performance metrics\n- Identify improvement opportunities\n- I"
  ++ "mplement refinements\n- Scale successful approaches\n\n\uf8ff\u00fc\u00ee\u00e7 **Deep Dive:** The m"
  ++ "ost effective implementations combine careful planning with flexible execution.\n\n---\n\n## Chapter"
  ++ " 5: Advanced Strategies\n\nReady to take your "
  ++ (pyLower t)
  ++ " skills to the next level? These advanced strategies will set you apart.\n\n### Expert-Level Techniq"
  ++ "ues\n\n**Strategy 1: Systems Integration**\n"
  ++ (pyRepeat ("Advanced practitioners of " ++ (pyLower t) ++ " understand how to integrate multiple systems and approaches.") m)
  ++ "\n\n**Strategy 2: Predictive Analysis**\nLearn to anticipate challenges and opportunities before the"
  ++ "y become obvious.\n\n**Strategy 3: Optimization Loops**\nCreate systematic approaches to continuous "
  ++ "improvement.\n\n### Case Studies\n\n**Case Study 1: The Transformation Success**\n"
  ++ (pyRepeat ("A detailed look at how one organization successfully implemented " ++ (pyLower t) ++ " strategies.") m)
  ++ "\n\n**Case Study 2: The Innovation Breakthrough** \nHow creative application of fundamental principl"
  ++ "es led to breakthrough results.\n\n**Case Study 3: The Scaling Solution**\nLessons from successfully"
  ++ " scaling "
  ++ (pyLower t)
  ++ " approaches across larger contexts.\n\n\uf8ff\u00fc\u00ed\u00b0 **Pro Tip:** Study both successes an"
  ++ "d failures. Failed attempts often provide the most valuable insights.\n\n---\n\n## Chapter 6: Common"
  ++ " Pitfalls & Solutions\n\nLearn from others\x27 mistakes to accelerate your own progress.\n\n### The "
  ++ "Top 10 Mistakes\n\n1. **Rushing the Fundamentals**\n   - Problem: Skipping basic concepts to reach a"
  ++ "dvanced topics quickly\n   - Solution: Build solid foundations before advancing\n\n2. **Analysis Par"
  ++ "alysis** \n   - Problem: Over-researching without taking action\n   - Solution: Set decision deadlin"
  ++ "es and embrace imperfect action\n\n3. **Ignoring Context**\n   - Problem: Applying solutions without"
  ++ " considering specific circumstances  \n   - Solution: Always adapt general principles to your unique"
  ++ " situation\n\n"
  ++ (pyRepeat ("4-10. Additional common mistakes specific to " ++ (pyLower t) ++ " and their proven solutions...") m)
  ++ "\n\n### Recovery Strategies\n\nWhen things go wrong (and they will), here\x27s how to recover:\n\n**"
  ++ "The Reset Protocol:**\n1. Acknowledge the problem without self-judgment\n2. Analyze what led to the "
  ++ "issue\n3. Identify the minimum viable correction\n4. Implement fixes systematically\n5. Document les"
  ++ "sons for future reference\n\n\u201a\u00f6\u00b0 **Quick Win:** Create a simple checklist to avoid th"
  ++ "e three most common mistakes in your area of focus.\n\n---\n\n## Chapter 7: Best Practices & Tips\n\n"
  ++ "Accelerate your progress with these proven best practices.\n\n### The Success Framework\n\n**Daily H"
  ++ "abits:**\n- Consistent practice (even 10 minutes counts)\n- Regular review of progress\n- Active see"
  ++ "king of feedback\n- Continuous learning mindset\n\n**Weekly Reviews:**\n- Assess what\x27s working w"
  ++ "ell\n- Identify areas for improvement\n- Adjust strategies as needed\n- Celebrate progress made\n\n*"
  ++ "*Monthly Deep Dives:**\n- Comprehensive skill assessment\n- Strategic planning updates\n- Goal refin"
  ++ "ement\n- Knowledge gap analysis\n\n### Productivity Hacks\n\n"
  ++ (pyRepeat ("Specific tips and tricks that successful " ++ (pyLower t) ++ " practitioners use to maximize their effectiveness:") m)
  ++ "\n\n\uf8ff\u00fc\u00ee\u00e7 **Deep Dive:** The compound effect of small, consistent improvements cr"
  ++ "eates extraordinary long-term results.\n\n---\n\n## Chapter 8: Your Next Steps\n\nCongratulations! Y"
  ++ "ou now have a comprehensive understanding of "
  ++ (pyLower t)
  ++ ". Here\x27s how to continue your journey.\n\n### The 30-60-90 Day Plan\n\n**Days 1-30: Foundation Bu"
  ++ "ilding**\n- Implement core concepts daily\n- Complete at least 3 practical exercises\n- Join relevan"
  ++ "t communities\n- Track progress metrics\n\n**Days 31-60: Skill Development**\n- Tackle more complex "
  ++ "challenges\n- Seek mentorship or guidance\n- Share your knowledge with others\n- Experiment with adv"
  ++ "anced techniques\n\n**Days 61-90: Mastery Path**\n- Lead projects or initiatives\n- Teach others wha"
  ++ "t you\x27ve learned\n- Contribute to community knowledge\n- Plan your advanced learning path\n\n### "
  ++ "Continued Learning Resources\n\n**Books and Publications:**\n- [Curated list of advanced resources]\n"
  ++ "\n**Communities and Networks:**\n- Professional associations\n- Online forums and groups\n- Local me"
  ++ "etups and events\n\n**Tools and Software:**\n- Essential tools for continued practice\n- Advanced pl"
  ++ "atforms for skill development\n\n### Final Thoughts\n\nMastering "
  ++ (pyLower t)
  ++ " is a journey, not a destination. The concepts in this book provide a strong foundation, but your co"
  ++ "ntinued growth depends on:\n\n- **Consistent application** of what you\x27ve learned\n- **Continuous"
  ++ " learning** as the field evolves\n- **Community engagement** with fellow practitioners  \n- **Teachi"
  ++ "ng others** to reinforce your own understanding\n\n\uf8ff\u00fc\u00ed\u00b0 **Final Pro Tip:** The b"
  ++ "est learning happens when you combine structured study with real-world application. Don\x27t wait un"
  ++ "til you feel \"ready\"\u201a\u00c4\u00eestart applying these concepts today.\n\n---\n\n## Bonus: Qui"
  ++ "ck Reference Guide\n\n### Key Concepts Checklist\n- [ ] Core fundamentals understood\n- [ ] Practica"
  ++ "l applications identified\n- [ ] Common pitfalls recognized\n- [ ] Best practices implemented\n- [ ]"
  ++ " Advanced strategies planned\n\n### Emergency Troubleshooting\nWhen stuck, ask yourself:\n1. Am I ov"
  ++ "erthinking this?\n2. What would the simplest solution look like?\n3. Who could I ask for guidance?\n"
  ++ "4. What would I tell someone else in this situation?\n\n### Success Metrics\nTrack these key indicat"
  ++ "ors:\n- Consistency of practice\n- Quality of implementations\n- Speed of problem-solving\n- Confide"
  ++ "nce in application\n- Ability to teach others\n\n---\n\n*Thank you for choosing this guide for your "
  ++ (pyLower t)
  ++ " journey. Your success is our success!*\n\n**Word Count:** ~"
  ++ (Nat.repr (2500 * m))
  ++ " words\n**Estimated Reading Time:** "
  ++ (Nat.repr (20 * m))
  ++ " minutes\n**Skill Level:** "
  ++ (pyTitle a)
  ++ "\n**Last Updated:** "
  ++ today

/-- Fallback generation `_generate_enhanced_fallback_book` (server.py lines
167-534): `fallbackBody t a ex today m` is the returned f-string with topic
`t`, audience `a`, examples string `ex`, formatted current date `today` and
content multiplier `m` substituted. -/
def generateEnhancedFallbackBook (request : BookRequest) (today : String) : String :=
  fallbackBody request.topic request.audience (findExamples request.topic) today
    (contentMultiplier request.tier)

/-- Attempt loop of `generate_book` (lines 135-161), instrumented with a
trace: `runAttempts att fuel attempt strat` returns the accepted response (if
any) together with the list of `(attempt index, strategy)` pairs actually
tried. On a caught exception the provider and model are forced to the default
when `attempt < 2`; on a merely under-length response the strategy is kept. -/
def runAttempts (att : Nat → Strategy → Except String (Option String)) :
    Nat → Nat → Strategy → Option String × List (Nat × Strategy)
  | 0, _, _ => (none, [])
  | fuel + 1, attempt, strat =>
    match att attempt strat with
    | Except.ok response =>
      if responseOk response then
        (response, [(attempt, strat)])
      else
        let rest := runAttempts att fuel (attempt + 1) strat
        (rest.1, (attempt, strat) :: rest.2)
    | Except.error _ =>
      let strat2 := if attempt < 2 then defaultRetryStrategy strat else strat
      let rest := runAttempts att fuel (attempt + 1) strat2
      (rest.1, (attempt, strat) :: rest.2)

namespace AIBookGenerator

/-- Model of `AIBookGenerator.generate_book` (server.py lines 66-165): run up
to 3 attempts starting from the topic-selected strategy; return the first
accepted response, else the enhanced fallback book. -/
def generate_book (att : Nat → Strategy → Except String (Option String))
    (request : BookRequest) (today : String) : String :=
  match (runAttempts att 3 0 (selectStrategy request.topic)).1 with
  | some r => r
  | none => generateEnhancedFallbackBook request today

end AIBookGenerator

/-- BookOrder built by the endpoint (lines 555-559) and handed to
`db.book_orders.insert_one`: `word_count = len(content.split())`, `status`
defaulted to "generated". -/
def storedBookOrder (att : Nat → Strategy → Except String (Option String))
    (uuid : String) (now : Nat) (today : String) (request : BookRequest) : BookOrder :=
  let content := AIBookGenerator.generate_book att request today
  { id := uuid, book_request := request, content := content,
    word_count := (pySplit content).length, created_at := now }

/-- Response record built in the success path of the endpoint (server.py
lines 565-574): it echoes the stored order's id, content, word count and
timestamp, with status "completed". -/
def successResponse (book_order : BookOrder) (request : BookRequest) : BookResponse :=
  { id := book_order.id, topic := request.topic, audience := request.audience,
    content := book_order.content, status := "completed", tier := request.tier,
    word_count := book_order.word_count, created_at := book_order.created_at }

/-- Model of the `/api/generate-book` endpoint (server.py lines 544-578). The
whole body runs inside one `try`: content generation itself never raises, so
the only caught failure is the `insert_one` outcome `storeResult`; a raising
store becomes `HTTPException(500, "Book generation failed: ...")`, modelled
as `Except.error`. On a successful store the response record above is
returned. -/
def generate_book_endpoint (att : Nat → Strategy → Except String (Option String))
    (uuid : String) (now : Nat) (today : String) (storeResult : Except String Unit)
    (request : BookRequest) : Except String BookResponse :=
  let book_order := storedBookOrder att uuid now today request
  match storeResult with
  | Except.error e => Except.error ("Book generation failed: " ++ e)
  | Except.ok _ => Except.ok (successResponse book_order request)


/-! ### Helper lemmas -/

theorem pyRepeat_length (s : String) : ∀ n, (pyRepeat s n).length = n * s.length
  | 0 => by simp [pyRepeat]
  | n + 1 => by
    simp [pyRepeat, String.length_append, pyRepeat_length s n, Nat.succ_mul, Nat.add_comm]

/-- Every accepted response of the attempt loop was produced by the oracle at
some attempt in range and passed the quality check. -/
theorem runAttempts_some_exists (att : Nat → Strategy → Except String (Option String)) :
    ∀ (fuel a : Nat) (s : Strategy) (r : String),
      (runAttempts att fuel a s).1 = some r →
      ∃ i si, a ≤ i ∧ i < a + fuel ∧ att i si = Except.ok (some r) ∧
        responseOk (some r) = true
  | 0, _, _, _, h => by simp [runAttempts] at h
  | fuel + 1, a, s, r, h => by
    rw [runAttempts] at h
    split at h
    · rename_i response hatt
      by_cases hok : responseOk response = true
      · rw [if_pos hok] at h
        have h' : response = some r := h
        subst h'
        exact ⟨a, s, Nat.le_refl a, by omega, hatt, hok⟩
      · rw [if_neg hok] at h
        have h' : (runAttempts att fuel (a + 1) s).1 = some r := h
        obtain ⟨i, si, hai, hlt, he, hr⟩ := runAttempts_some_exists att fuel (a + 1) s r h'
        exact ⟨i, si, by omega, by omega, he, hr⟩
    · rename_i e hatt
      have h' :
          (runAttempts att fuel (a + 1) (if a < 2 then defaultRetryStrategy s else s)).1 =
            some r := h
      obtain ⟨i, si, hai, hlt, he, hr⟩ :=
        runAttempts_some_exists att fuel (a + 1) (if a < 2 then defaultRetryStrategy s else s) r h'
      exact ⟨i, si, by omega, by omega, he, hr⟩

/-- Once the strategy carries the default provider and model, every
strategy recorded by the rest of the loop still carries them: the too-short
branch keeps the strategy and the exception branch re-forces the default. -/
theorem runAttempts_keeps_default (att : Nat → Strategy → Except String (Option String)) :
    ∀ (fuel a : Nat) (s : Strategy), s.provider = "openai" → s.model = "gpt-4o-mini" →
      ∀ p ∈ (runAttempts att fuel a s).2, p.2.provider = "openai" ∧ p.2.model = "gpt-4o-mini"
  | 0, _, _, _, _, _, hp => by simp [runAttempts] at hp
  | fuel + 1, a, s, hprov, hmod, p, hp => by
    rw [runAttempts] at hp
    split at hp
    · rename_i response hatt
      by_cases hok : responseOk response = true
      · rw [if_pos hok] at hp
        have hp' : p ∈ [(a, s)] := hp
        simp only [List.mem_singleton] at hp'
        subst hp'
        exact ⟨hprov, hmod⟩
      · rw [if_neg hok] at hp
        have hp' : p ∈ (a, s) :: (runAttempts att fuel (a + 1) s).2 := hp
        rcases List.mem_cons.mp hp' with hp2 | hp2
        · subst hp2; exact ⟨hprov, hmod⟩
        · exact runAttempts_keeps_default att fuel (a + 1) s hprov hmod p hp2
    · rename_i e hatt
      have hp' :
          p ∈ (a, s) ::
            (runAttempts att fuel (a + 1) (if a < 2 then defaultRetryStrategy s else s)).2 := hp
      rcases List.mem_cons.mp hp' with hp2 | hp2
      · subst hp2; exact ⟨hprov, hmod⟩
      · by_cases ha : a < 2
        · rw [if_pos ha] at hp2
          exact runAttempts_keeps_default att fuel (a + 1) (defaultRetryStrategy s) rfl rfl p hp2
        · rw [if_neg ha] at hp2
          exact runAttempts_keeps_default att fuel (a + 1) s hprov hmod p hp2

/-! ### Claims -/

/-- C5: strategy selection is a deterministic, case-insensitive function of
the topic: a topic containing "technical" or "programming" selects the
technical-style strategy (openai/gpt-4o-mini, "technical yet accessible");
otherwise one containing "story" or "creative" selects the narrative-style
strategy (anthropic/claude-3-5-sonnet-20241022, "engaging and
narrative-driven"); otherwise the default general strategy
(openai/gpt-4o-mini, "clear and informative") is selected. -/
theorem c5_strategy_selection_deterministic (topic : String) :
    ((pyIn "technical" (pyLower topic) || pyIn "programming" (pyLower topic)) = true →
      selectStrategy topic = ⟨"openai", "gpt-4o-mini", "technical yet accessible"⟩) ∧
    ((pyIn "technical" (pyLower topic) || pyIn "programming" (pyLower topic)) = false →
      (pyIn "story" (pyLower topic) || pyIn "creative" (pyLower topic)) = true →
      selectStrategy topic =
        ⟨"anthropic", "claude-3-5-sonnet-20241022", "engaging and narrative-driven"⟩) ∧
    ((pyIn "technical" (pyLower topic) || pyIn "programming" (pyLower topic)) = false →
      (pyIn "story" (pyLower topic) || pyIn "creative" (pyLower topic)) = false →
      selectStrategy topic = ⟨"openai", "gpt-4o-mini", "clear and informative"⟩) := by
  refine ⟨fun h1 => ?_, fun h1 h2 => ?_, fun h1 h2 => ?_⟩
  · simp [selectStrategy, h1]
  · simp [selectStrategy, h1, h2]
  · simp [selectStrategy, h1, h2]

/-- Witness for C5 at the three concrete topics named by the spec. -/
theorem c5_strategy_selection_witness :
    selectStrategy "Advanced Programming Patterns" =
      ⟨"openai", "gpt-4o-mini", "technical yet accessible"⟩ ∧
    selectStrategy "A Creative Short Story" =
      ⟨"anthropic", "claude-3-5-sonnet-20241022", "engaging and narrative-driven"⟩ ∧
    selectStrategy "Healthy Living Tips" =
      ⟨"openai", "gpt-4o-mini", "clear and informative"⟩ :=
  ⟨(c5_strategy_selection_deterministic "Advanced Programming Patterns").1 (by decide),
   (c5_strategy_selection_deterministic "A Creative Short Story").2.1 (by decide) (by decide),
   (c5_strategy_selection_deterministic "Healthy Living Tips").2.2 (by decide) (by decide)⟩

set_option maxRecDepth 16000 in
/-- C9 counterexample: the fallback body is not a function of the request
fields alone — the very same request yields different bodies when the
ambient generation date (`datetime.now().strftime("%B %Y")`, line 534)
differs, so two calls to the constructor need not agree. -/
theorem c9_fallback_depends_on_date_cex :
    generateEnhancedFallbackBook ⟨"", "", "", "", "basic", none⟩ "January 2026" ≠
      generateEnhancedFallbackBook ⟨"", "", "", "", "basic", none⟩ "May 2026" := by
  intro h
  have hl := congrArg String.length h
  have hm : contentMultiplier "basic" = 1 := by decide
  simp only [generateEnhancedFallbackBook, fallbackBody, hm, String.length_append,
    pyRepeat_length, Nat.one_mul] at hl
  have hJ : ("January 2026" : String).length = 12 := by decide
  have hM : ("May 2026" : String).length = 8 := by decide
  omega

/-- C9 amended: the fallback body is a deterministic pure function of the
request's topic, audience and tier together with the current generation
date; it reads no other request field (style, length, email are ignored),
and the construction is total for all string-valued fields. -/
theorem c9_fallback_function_of_topic_audience_tier_date
    (topic audience tier today st1 st2 ln1 ln2 : String) (em1 em2 : Option String) :
    generateEnhancedFallbackBook ⟨topic, audience, st1, ln1, tier, em1⟩ today =
      generateEnhancedFallbackBook ⟨topic, audience, st2, ln2, tier, em2⟩ today := rfl

/-- C10: the endpoint performs no topic validation of its own: a request
whose topic is the empty string is still run through the pipeline, and when
persistence succeeds the caller receives a normal completed artifact rather
than a rejection. -/
theorem c10_empty_topic_still_generates
    (att : Nat → Strategy → Except String (Option String))
    (uuid : String) (now : Nat) (today audience st ln tier : String)
    (email : Option String) :
    ∃ resp,
      generate_book_endpoint att uuid now today (Except.ok ())
          ⟨"", audience, st, ln, tier, email⟩ = Except.ok resp ∧
      resp.status = "completed" ∧ resp.topic = "" ∧
      resp.content =
        AIBookGenerator.generate_book att ⟨"", audience, st, ln, tier, email⟩ today :=
  ⟨_, rfl, rfl, rfl, rfl⟩


/-- Unfolding lemma: an attempt whose oracle call returns an accepted
response ends the loop at once. -/
theorem runAttempts_first_ok (att : Nat → Strategy → Except String (Option String))
    (fuel a : Nat) (s : Strategy) (response : Option String)
    (hatt : att a s = Except.ok response) (hok : responseOk response = true) :
    runAttempts att (fuel + 1) a s = (response, [(a, s)]) := by
  simp [runAttempts, hatt, hok]

/-- Unfolding lemma: an attempt whose oracle call raises records the current
strategy and retries with the default forced when `attempt < 2`. -/
theorem runAttempts_first_error (att : Nat → Strategy → Except String (Option String))
    (fuel a : Nat) (s : Strategy) (e : String) (hatt : att a s = Except.error e) :
    runAttempts att (fuel + 1) a s =
      ((runAttempts att fuel (a + 1) (if a < 2 then defaultRetryStrategy s else s)).1,
       (a, s) :: (runAttempts att fuel (a + 1) (if a < 2 then defaultRetryStrategy s else s)).2) := by
  rw [runAttempts, hatt]

/-! ### Sample oracles and requests used by witnesses -/

/-- Response of 502 characters whose stripped length is 501 (leading space). -/
def longResponse : String := String.mk (' ' :: List.replicate 501 'a')

/-- Oracle that always answers with `longResponse`. -/
def attLong : Nat → Strategy → Except String (Option String) :=
  fun _ _ => Except.ok (some longResponse)

/-- Oracle that always raises. -/
def attError : Nat → Strategy → Except String (Option String) :=
  fun _ _ => Except.error "boom"

/-- Oracle that always answers with an under-length response. -/
def attShort : Nat → Strategy → Except String (Option String) :=
  fun _ _ => Except.ok (some "short")

/-- Sample request with no strategy keyword in the topic. -/
def reqSample : BookRequest :=
  ⟨"Python Tips", "beginners", "professional", "medium", "pro", none⟩

/-- Sample request whose topic selects the narrative-style strategy. -/
def reqCreative : BookRequest :=
  ⟨"A Creative Short Story", "readers", "professional", "medium", "pro", none⟩

/-- C1: `generate_book` always returns a body string: either some in-range
attempt produced an oracle response that passed the 500-character quality
check and that response is returned, or the deterministic fallback body is
returned — exceptions and under-length responses never escape the loop. -/
theorem c1_generate_book_absorbs_failures
    (att : Nat → Strategy → Except String (Option String))
    (req : BookRequest) (today : String) :
    (∃ i si r, i < 3 ∧ att i si = Except.ok (some r) ∧ 500 < (pyStrip r).length ∧
      AIBookGenerator.generate_book att req today = r) ∨
    AIBookGenerator.generate_book att req today = generateEnhancedFallbackBook req today := by
  cases h : (runAttempts att 3 0 (selectStrategy req.topic)).1 with
  | none =>
    right
    unfold AIBookGenerator.generate_book
    rw [h]
  | some r =>
    left
    obtain ⟨i, si, hai, hlt, he, hr⟩ := runAttempts_some_exists att 3 0 _ r h
    refine ⟨i, si, r, by omega, he, ?_, ?_⟩
    · have hr' := hr
      simp [responseOk] at hr'
      exact hr'.2
    · unfold AIBookGenerator.generate_book
      rw [h]

/-- C4: a first attempt whose response has stripped length strictly greater
than 500 ends the loop immediately: the response becomes the returned body
verbatim (whitespace preserved) and no second or third attempt is made. -/
theorem c4_first_qualifying_response_stops_loop
    (att : Nat → Strategy → Except String (Option String))
    (req : BookRequest) (today r : String)
    (h0 : att 0 (selectStrategy req.topic) = Except.ok (some r))
    (hlen : 500 < (pyStrip r).length) :
    AIBookGenerator.generate_book att req today = r ∧
    (runAttempts att 3 0 (selectStrategy req.topic)).2 = [(0, selectStrategy req.topic)] := by
  have hne : ¬ r = "" := by
    intro hr
    subst hr
    exact absurd hlen (by decide)
  have hok : responseOk (some r) = true := by
    simp [responseOk, hne, hlen]
  have h3 : runAttempts att 3 0 (selectStrategy req.topic) =
      (some r, [(0, selectStrategy req.topic)]) :=
    runAttempts_first_ok att 2 0 (selectStrategy req.topic) (some r) h0 hok
  constructor
  · unfold AIBookGenerator.generate_book
    rw [h3]
  · rw [h3]

set_option maxRecDepth 16000 in
/-- Witness for C4: an oracle answering a 502-character response (leading
space, stripped length 501) on attempt 1 is returned verbatim and the trace
has exactly one entry. -/
theorem c4_first_qualifying_witness :
    AIBookGenerator.generate_book attLong reqSample "June 2026" = longResponse ∧
    (runAttempts attLong 3 0 (selectStrategy reqSample.topic)).2 =
      [(0, selectStrategy reqSample.topic)] :=
  c4_first_qualifying_response_stops_loop attLong reqSample "June 2026" longResponse rfl
    (by decide)

/-- C3 counterexample: with a topic selecting the narrative-style strategy,
an under-length (but non-raising) response on attempt 1 does NOT force the
default strategy — attempts 2 and 3 still use the anthropic provider, because
only the `except` branch (lines 158-160) reassigns the model. -/
theorem c3_short_response_keeps_strategy_cex :
    ((runAttempts attShort 3 0 (selectStrategy "A Creative Short Story")).2.map
      (fun p => p.2.provider)) = ["anthropic", "anthropic", "anthropic"] ∧
    ("anthropic" : String) ≠ "openai" := by
  constructor
  · decide
  · decide

/-- C3 amended: the strategy is forced to the default provider/model only on
an exception: if attempt 1 raises, then every attempt after the first uses
provider "openai" and model "gpt-4o-mini" (a merely under-length response,
by contrast, leaves the strategy unchanged — see the counterexample). -/
theorem c3_default_strategy_only_after_exception
    (att : Nat → Strategy → Except String (Option String))
    (req : BookRequest) (e : String)
    (h0 : att 0 (selectStrategy req.topic) = Except.error e) :
    ∀ p ∈ (runAttempts att 3 0 (selectStrategy req.topic)).2, 1 ≤ p.1 →
      p.2.provider = "openai" ∧ p.2.model = "gpt-4o-mini" := by
  intro p hp h1
  have h3 : runAttempts att 3 0 (selectStrategy req.topic) =
      ((runAttempts att 2 1 (defaultRetryStrategy (selectStrategy req.topic))).1,
       (0, selectStrategy req.topic) ::
         (runAttempts att 2 1 (defaultRetryStrategy (selectStrategy req.topic))).2) :=
    runAttempts_first_error att 2 0 (selectStrategy req.topic) e h0
  rw [h3] at hp
  have hp' : p ∈ (0, selectStrategy req.topic) ::
      (runAttempts att 2 1 (defaultRetryStrategy (selectStrategy req.topic))).2 := hp
  rcases List.mem_cons.mp hp' with hp2 | hp2
  · subst hp2
    have h1' : (1 : Nat) ≤ 0 := h1
    omega
  · exact runAttempts_keeps_default att 2 1 (defaultRetryStrategy (selectStrategy req.topic))
      rfl rfl p hp2

/-- Witness for C3 amended: with an always-raising oracle and the creative
topic, the entry for attempt 2 is in the trace and carries the default
provider and model. -/
theorem c3_default_strategy_witness :
    (defaultRetryStrategy (selectStrategy "A Creative Short Story")).provider = "openai" ∧
    (defaultRetryStrategy (selectStrategy "A Creative Short Story")).model = "gpt-4o-mini" :=
  c3_default_strategy_only_after_exception attError reqCreative "boom" rfl
    (1, defaultRetryStrategy (selectStrategy "A Creative Short Story")) (by decide) (by decide)

/-- C2: both the persisted BookOrder and the returned BookResponse carry a
`word_count` equal to the number of whitespace-delimited tokens
(`len(content.split())`) of their content body. -/
theorem c2_word_count_is_split_count
    (att : Nat → Strategy → Except String (Option String))
    (uuid : String) (now : Nat) (today : String) (store : Except String Unit)
    (req : BookRequest) :
    (storedBookOrder att uuid now today req).word_count =
      (pySplit (storedBookOrder att uuid now today req).content).length ∧
    ∀ resp, generate_book_endpoint att uuid now today store req = Except.ok resp →
      resp.word_count = (pySplit resp.content).length := by
  refine ⟨rfl, fun resp h => ?_⟩
  cases store with
  | error e => exact absurd h (by simp [generate_book_endpoint])
  | ok u =>
    have h2 : Except.ok (successResponse (storedBookOrder att uuid now today req) req) =
        Except.ok resp := h
    have h3 := Except.ok.inj h2
    subst h3
    rfl

/-- Witness for C2 with a concrete oracle, store success and request. -/
theorem c2_word_count_witness :
    (successResponse (storedBookOrder attShort "id-1" 0 "July 2026" reqSample)
        reqSample).word_count =
      (pySplit (successResponse (storedBookOrder attShort "id-1" 0 "July 2026" reqSample)
        reqSample).content).length :=
  (c2_word_count_is_split_count attShort "id-1" 0 "July 2026" (Except.ok ()) reqSample).2 _ rfl

/-- C7: the persisted BookOrder always carries status "generated" and every
response the endpoint returns carries status "completed" — there is no
"failed" status and nothing distinguishes fallback content from externally
generated content. -/
theorem c7_status_completed_and_generated
    (att : Nat → Strategy → Except String (Option String))
    (uuid : String) (now : Nat) (today : String) (store : Except String Unit)
    (req : BookRequest) :
    (storedBookOrder att uuid now today req).status = "generated" ∧
    ∀ resp, generate_book_endpoint att uuid now today store req = Except.ok resp →
      resp.status = "completed" := by
  refine ⟨rfl, fun resp h => ?_⟩
  cases store with
  | error e => exact absurd h (by simp [generate_book_endpoint])
  | ok u =>
    have h2 : Except.ok (successResponse (storedBookOrder att uuid now today req) req) =
        Except.ok resp := h
    have h3 := Except.ok.inj h2
    subst h3
    rfl

/-- Witness for C7 with a concrete oracle, store success and request. -/
theorem c7_status_witness :
    (successResponse (storedBookOrder attError "id-2" 0 "July 2026" reqSample)
        reqSample).status = "completed" :=
  (c7_status_completed_and_generated attError "id-2" 0 "July 2026" (Except.ok ()) reqSample).2
    _ rfl

/-- C8 counterexample: when the persistence store raises, the endpoint does
NOT return the artifact — the exception is caught by the endpoint's
try/except (lines 576-578) and re-raised as HTTP 500 "Book generation
failed", contradicting fire-and-forget persistence. -/
theorem c8_store_failure_returns_error_cex :
    generate_book_endpoint attShort "id-3" 0 "July 2026" (Except.error "db down") reqSample =
      Except.error "Book generation failed: db down" := rfl

/-- C8 amended: if the persistence store raises, the endpoint raises an HTTP
500 "Book generation failed" error instead of returning the artifact; when
the store succeeds, the response handed to the caller is built from the very
artifact that was persisted — same id, content body, word count and
creation timestamp. -/
theorem c8_store_failure_http500_else_same_artifact
    (att : Nat → Strategy → Except String (Option String))
    (uuid : String) (now : Nat) (today : String) (req : BookRequest) :
    (∀ e, generate_book_endpoint att uuid now today (Except.error e) req =
      Except.error ("Book generation failed: " ++ e)) ∧
    (∀ u resp, generate_book_endpoint att uuid now today (Except.ok u) req = Except.ok resp →
      resp.id = (storedBookOrder att uuid now today req).id ∧
      resp.content = (storedBookOrder att uuid now today req).content ∧
      resp.word_count = (storedBookOrder att uuid now today req).word_count ∧
      resp.created_at = (storedBookOrder att uuid now today req).created_at) := by
  refine ⟨fun e => rfl, fun u resp h => ?_⟩
  have h2 : Except.ok (successResponse (storedBookOrder att uuid now today req) req) =
      Except.ok resp := h
  have h3 := Except.ok.inj h2
  subst h3
  exact ⟨rfl, rfl, rfl, rfl⟩

/-- Witness for C8 amended at a concrete oracle and request, covering both
the failing-store and the successful-store branch. -/
theorem c8_store_witness :
    generate_book_endpoint attShort "id-4" 0 "July 2026" (Except.error "db down") reqSample =
      Except.error ("Book generation failed: " ++ "db down") ∧
    (successResponse (storedBookOrder attShort "id-4" 0 "July 2026" reqSample) reqSample).id =
      (storedBookOrder attShort "id-4" 0 "July 2026" reqSample).id :=
  ⟨(c8_store_failure_http500_else_same_artifact attShort "id-4" 0 "July 2026" reqSample).1
      "db down",
   ((c8_store_failure_http500_else_same_artifact attShort "id-4" 0 "July 2026" reqSample).2
      () _ rfl).1⟩


set_option maxRecDepth 16000 in
/-- Length of the fallback body grows strictly from multiplier 1 to 2: the
repeated template blocks are non-empty and the footer numerals keep their
digit counts. -/
theorem fallbackBody_len_lt_one_two (t a ex d : String) :
    (fallbackBody t a ex d 1).length < (fallbackBody t a ex d 2).length := by
  simp only [fallbackBody, String.length_append, pyRepeat_length]
  have h1 : (Nat.repr (2500 * 1)).length = 4 := by decide
  have h2 : (Nat.repr (2500 * 2)).length = 4 := by decide
  have h3 : (Nat.repr (20 * 1)).length = 2 := by decide
  have h4 : (Nat.repr (20 * 2)).length = 2 := by decide
  have h1b : (Nat.repr 2500).length = 4 := by decide
  have h2b : (Nat.repr 5000).length = 4 := by decide
  have h3b : (Nat.repr 20).length = 2 := by decide
  have h4b : (Nat.repr 40).length = 2 := by decide
  have h5 : 0 < ("For " : String).length := by decide
  omega

set_option maxRecDepth 16000 in
/-- Length of the fallback body grows strictly from multiplier 2 to 3. -/
theorem fallbackBody_len_lt_two_three (t a ex d : String) :
    (fallbackBody t a ex d 2).length < (fallbackBody t a ex d 3).length := by
  simp only [fallbackBody, String.length_append, pyRepeat_length]
  have h1 : (Nat.repr (2500 * 2)).length = 4 := by decide
  have h2 : (Nat.repr (2500 * 3)).length = 4 := by decide
  have h3 : (Nat.repr (20 * 2)).length = 2 := by decide
  have h4 : (Nat.repr (20 * 3)).length = 2 := by decide
  have h1b : (Nat.repr 5000).length = 4 := by decide
  have h2b : (Nat.repr 7500).length = 4 := by decide
  have h3b : (Nat.repr 40).length = 2 := by decide
  have h4b : (Nat.repr 60).length = 2 := by decide
  have h5 : 0 < ("For " : String).length := by decide
  omega

/-- C6: for a fixed topic, audience (and date), the fallback body length
strictly increases with tier across basic < pro < premium, because the tier
multiplier (basic=1, pro=2, premium=3) scales the repeated template blocks. -/
theorem c6_fallback_length_strictly_increasing
    (topic audience today st ln : String) (email : Option String) :
    (generateEnhancedFallbackBook ⟨topic, audience, st, ln, "basic", email⟩ today).length <
      (generateEnhancedFallbackBook ⟨topic, audience, st, ln, "pro", email⟩ today).length ∧
    (generateEnhancedFallbackBook ⟨topic, audience, st, ln, "pro", email⟩ today).length <
      (generateEnhancedFallbackBook ⟨topic, audience, st, ln, "premium", email⟩ today).length :=
  ⟨fallbackBody_len_lt_one_two topic audience (findExamples topic) today,
   fallbackBody_len_lt_two_three topic audience (findExamples topic) today⟩

end FinalBook
